import Mathlib

/-!
Verification development for the MPC20-OTA-test repository (two Python
script variants: `src/can-update-script.py`, called variant A below, and
`src/unnamed/part_000`, called variant B).  The CAN handshake logic of the
two scripts is embedded shallowly: frames are records over `Nat`, the
receive loop of `wait_for_response` is a function over an explicit list of
timed receive events, and the orchestration in `main` is a function from
stage results to an outcome together with the list of performed actions.
-/

/-- A CAN frame as built and inspected by the scripts: a (29-bit, when
extended) arbitration identifier, the extended-id flag, and up to 8 data
bytes.  The scripts never enforce the bounds on received frames, so the
fields are plain `Nat`s / lists. -/
structure CanFrame where
  arbitration_id : Nat
  extended : Bool
  data : List Nat
deriving DecidableEq, Repr

/-- The fixed trigger frame built in `send_can_message` (identical in both
variants): 29-bit id 0x18FF14FA, extended, payload `[1,0,0,0,0,0,0,0]`. -/
def triggerFrame : CanFrame :=
  { arbitration_id := 0x18FF14FA, extended := true
    data := [1, 0, 0, 0, 0, 0, 0, 0] }

/-- Outcome of evaluating the ack condition of `wait_for_response` on one
received frame: the Python condition either decides to accept/skip the
frame, or raises `IndexError` when it evaluates `msg.data[0]` on an empty
payload (the surrounding `except Exception` then aborts the wait). -/
inductive PredOut where
  | decided (b : Bool)
  | indexError
deriving DecidableEq, Repr

/-- Evaluation of the Python expression `msg.data[0] == 1`: raises
`IndexError` on an empty payload, otherwise compares byte 0 with 1. -/
def data0Is1 : List Nat → PredOut
  | [] => PredOut.indexError
  | b :: _ => PredOut.decided (b == 1)

/-- Variant A ack condition (src/can-update-script.py, lines 124-130):
`source_addr = msg.arbitration_id & 0xFF; if source_addr == 3 and
msg.data[0] == 1`.  Python `and` short-circuits, so `msg.data[0]` is only
evaluated when the source-address test passes. -/
def saPred (f : CanFrame) : PredOut :=
  if f.arbitration_id &&& 0xFF == 3 then data0Is1 f.data
  else PredOut.decided false

/-- Variant B ack condition (src/unnamed/part_000, lines 100-105):
`if (msg.arbitration_id & 0x1FFFF00) == 0x18FF14FB00: if msg.data[0] == 1`.
The constants are transcribed exactly as written in the source (mask
`0x1FFFF00`, comparison value `0x18FF14FB00`). -/
def groupPred (f : CanFrame) : PredOut :=
  if f.arbitration_id &&& 0x1FFFF00 == 0x18FF14FB00 then data0Is1 f.data
  else PredOut.decided false

/-- One result of a `bus.recv(timeout=1)` call inside the wait loop, with
the wall-clock time it consumed:
* `timeout`: recv returned `None` after the full 1-second receive timeout;
* `frame δ f`: frame `f` was delivered `δ` seconds into the call
  (`0 < δ ≤ 1` for a real channel);
* `chanError δ`: the channel raised an exception `δ` seconds into the
  call. -/
inductive TimedEvent where
  | timeout
  | frame (δ : ℚ) (f : CanFrame)
  | chanError (δ : ℚ)
deriving DecidableEq, Repr

/-- The polling loop of `wait_for_response`, common shape of both variants:
starting from elapsed time `e`, while `e < T` take the next receive event;
a `None` poll advances time by the 1-second receive timeout and continues;
a channel exception is caught by the function's `except` handler and
returns `False`; a delivered frame is tested with the ack condition
(`True` on accept, continue on skip, and an `IndexError` is caught by the
same handler, returning `False`).  When the scripted events are exhausted
every further poll returns `None` after a full second, so the loop exits
at elapsed time `e + ⌈T - e⌉`, the first whole poll reaching the deadline.
The result is the returned boolean paired with the elapsed time at
return. -/
def waitRunFrom (pred : CanFrame → PredOut) (T : ℚ) :
    List TimedEvent → ℚ → Bool × ℚ
  | [], e => if e < T then (false, e + (⌈T - e⌉ : ℚ)) else (false, e)
  | ev :: rest, e =>
    if e < T then
      match ev with
      | TimedEvent.timeout => waitRunFrom pred T rest (e + 1)
      | TimedEvent.chanError δ => (false, e + δ)
      | TimedEvent.frame δ f =>
        match pred f with
        | PredOut.decided true => (true, e + δ)
        | PredOut.decided false => waitRunFrom pred T rest (e + δ)
        | PredOut.indexError => (false, e + δ)
    else (false, e)

/-- Variant A `wait_for_response`: timeout 120 seconds, fixed-source-address
ack condition. -/
def wait_for_response_A (evts : List TimedEvent) : Bool × ℚ :=
  waitRunFrom saPred 120 evts 0

/-- Variant B `wait_for_response`: timeout 10 seconds, PGN-group ack
condition. -/
def wait_for_response_B (evts : List TimedEvent) : Bool × ℚ :=
  waitRunFrom groupPred 10 evts 0

/-- Operations performed on the CAN channel.  `closeBus` is in the
vocabulary so that its absence from a trace is meaningful: neither script
ever calls `shutdown()`/close on a bus object. -/
inductive ChanOp where
  | openBus
  | sendFrame (f : CanFrame)
  | closeBus
deriving DecidableEq, Repr

/-- How one invocation of `send_can_message` goes: everything succeeds, the
`can.interface.Bus(...)` constructor raises, or `bus.send(msg)` raises. -/
inductive SendBehavior where
  | ok
  | busFail
  | sendFail
deriving DecidableEq, Repr

/-- `send_can_message` (identical in both variants): opens a bus, builds
the fixed trigger frame and sends it; any exception is caught and `False`
returned.  Result: the channel operations performed, and the returned
boolean.  A failing `Bus(...)` constructor acquires nothing; a failing
`bus.send` happens after the open and the send attempt. -/
def send_can_message : SendBehavior → List ChanOp × Bool
  | SendBehavior.ok => ([ChanOp.openBus, ChanOp.sendFrame triggerFrame], true)
  | SendBehavior.busFail => ([], false)
  | SendBehavior.sendFail =>
      ([ChanOp.openBus, ChanOp.sendFrame triggerFrame], false)

/-- Externally visible actions of one iteration of the `main` loop. -/
inductive CycleAction where
  | chan (op : ChanOp)
  | setupIface
  | invokeUpdate
  | sleep60
deriving DecidableEq, Repr

/-- The stage results driving one iteration of `main`'s `while True` body:
whether `check_and_download_file` reported a fresh artifact, whether
`setup_can_interface` succeeded, how `send_can_message` behaved, the
receive events seen by `wait_for_response`, and whether
`send_update_command` succeeded. -/
structure StageResults where
  fresh : Bool
  setupOk : Bool
  sendB : SendBehavior
  waitEvents : List TimedEvent
  updateOk : Bool
deriving DecidableEq, Repr

/-- Outcome of one iteration of the `main` loop body. -/
inductive CycleOutcome where
  | noAction
  | ifaceFailed
  | sendFailed
  | ackFailed
  | updateFailed
  | completed
deriving DecidableEq, Repr

/-- One iteration of the `main` loop body (identical structure in both
variants), parameterized by the variant's `wait_for_response`.  On a fresh
artifact the stages run in order, each failure executing `continue` — which
jumps back to the top of `while True`, skipping the
`time.sleep(DOWNLOAD_CHECK_INTERVAL)` at the end of the body.  Only the
no-action path and the fully successful path reach the 60-second sleep.
The wait stage opens its own bus (`can.interface.Bus(...)` at the top of
`wait_for_response`); its individual `recv` polls are not tracked as
actions. -/
def main_cycle (wait : List TimedEvent → Bool × ℚ) (r : StageResults) :
    CycleOutcome × List CycleAction :=
  if r.fresh then
    if r.setupOk then
      let s := send_can_message r.sendB
      let acts := CycleAction.setupIface :: s.1.map CycleAction.chan
      if s.2 then
        let acts := acts ++ [CycleAction.chan ChanOp.openBus]
        if (wait r.waitEvents).1 then
          if r.updateOk then
            (CycleOutcome.completed, acts ++ [CycleAction.invokeUpdate, CycleAction.sleep60])
          else (CycleOutcome.updateFailed, acts ++ [CycleAction.invokeUpdate])
        else (CycleOutcome.ackFailed, acts)
      else (CycleOutcome.sendFailed, acts)
    else (CycleOutcome.ifaceFailed, [CycleAction.setupIface])
  else (CycleOutcome.noAction, [CycleAction.sleep60])

/-- A receive event of a well-behaved channel that never delivers an
acknowledgement: either an empty 1-second poll, or a frame (with a
physically meaningful delivery time `0 < δ ≤ 1`) that the ack condition
decides to skip. -/
def benignEvent (pred : CanFrame → PredOut) : TimedEvent → Prop
  | TimedEvent.timeout => True
  | TimedEvent.frame δ f => 0 < δ ∧ δ ≤ 1 ∧ pred f = PredOut.decided false
  | TimedEvent.chanError _ => False

/-- Once the deadline has passed, the wait loop returns `False` at the
current elapsed time without touching further events. -/
lemma waitRunFrom_done (pred : CanFrame → PredOut) (T : ℚ)
    (evts : List TimedEvent) (e : ℚ) (he : ¬e < T) :
    waitRunFrom pred T evts e = (false, e) := by
  cases evts <;> simp [waitRunFrom, he]

/-- A frame on which the ack condition decides `False` is discarded: the
wait continues on the remaining events, only the clock having advanced by
the frame's delivery time. -/
lemma waitRunFrom_skip (pred : CanFrame → PredOut) (T e δ : ℚ) (f : CanFrame)
    (evts : List TimedEvent) (he : e < T) (hf : pred f = PredOut.decided false) :
    waitRunFrom pred T (TimedEvent.frame δ f :: evts) e =
      waitRunFrom pred T evts (e + δ) := by
  simp [waitRunFrom, he, hf]

/-- The variant B ack condition is unsatisfiable: the masked identifier is
at most the mask `0x1FFFF00`, which is smaller than the comparison value
`0x18FF14FB00`, so the condition always decides `False`. -/
lemma groupPred_eq_false (f : CanFrame) : groupPred f = PredOut.decided false := by
  unfold groupPred
  rw [if_neg]
  intro h
  have hle : f.arbitration_id &&& 0x1FFFF00 ≤ 0x1FFFF00 := Nat.and_le_right
  simp only [beq_iff_eq] at h
  omega

/-- Consequently the variant B wait loop never returns `True`, from any
elapsed time and for any sequence of receive events. -/
lemma waitRunFrom_groupPred_false (evts : List TimedEvent) :
    ∀ e : ℚ, (waitRunFrom groupPred 10 evts e).1 = false := by
  induction evts with
  | nil =>
    intro e
    by_cases he : e < 10 <;> simp [waitRunFrom, he]
  | cons ev rest ih =>
    intro e
    by_cases he : e < 10
    · cases ev with
      | timeout => simpa [waitRunFrom, he] using ih (e + 1)
      | chanError δ => simp [waitRunFrom, he]
      | frame δ f => simpa [waitRunFrom, he, groupPred_eq_false f] using ih (e + δ)
    · simp [waitRunFrom_done _ _ _ _ he]

/-- Over benign events the wait loop returns `False`, no earlier than the
deadline `T` and strictly within one poll interval past it. -/
lemma waitRunFrom_timeout_bounds (pred : CanFrame → PredOut) (T : ℚ) :
    ∀ evts : List TimedEvent, (∀ ev ∈ evts, benignEvent pred ev) →
      ∀ e : ℚ, e < T →
        (waitRunFrom pred T evts e).1 = false ∧
        T ≤ (waitRunFrom pred T evts e).2 ∧
        (waitRunFrom pred T evts e).2 < T + 1 := by
  intro evts
  induction evts with
  | nil =>
    intro _ e he
    have hrw : waitRunFrom pred T [] e = (false, e + ((⌈T - e⌉ : ℤ) : ℚ)) := by
      simp [waitRunFrom, he]
    rw [hrw]
    have h1 : T - e ≤ ((⌈T - e⌉ : ℤ) : ℚ) := Int.le_ceil (T - e)
    have h2 : ((⌈T - e⌉ : ℤ) : ℚ) < T - e + 1 := Int.ceil_lt_add_one (T - e)
    refine ⟨rfl, ?_, ?_⟩
    · show T ≤ e + ((⌈T - e⌉ : ℤ) : ℚ)
      linarith
    · show e + ((⌈T - e⌉ : ℤ) : ℚ) < T + 1
      linarith
  | cons ev rest ih =>
    intro hb e he
    have hbev : benignEvent pred ev := hb ev (List.mem_cons_self ev rest)
    have hbrest : ∀ x ∈ rest, benignEvent pred x :=
      fun x hx => hb x (List.mem_cons_of_mem ev hx)
    cases ev with
    | timeout =>
      have hstep : waitRunFrom pred T (TimedEvent.timeout :: rest) e =
          waitRunFrom pred T rest (e + 1) := by
        simp [waitRunFrom, he]
      rw [hstep]
      by_cases h2 : e + 1 < T
      · exact ih hbrest (e + 1) h2
      · rw [waitRunFrom_done pred T rest (e + 1) h2]
        push_neg at h2
        refine ⟨rfl, ?_, ?_⟩
        · show T ≤ e + 1
          linarith
        · show e + 1 < T + 1
          linarith
    | frame δ f =>
      obtain ⟨hδ0, hδ1, hpf⟩ := hbev
      rw [waitRunFrom_skip pred T e δ f rest he hpf]
      by_cases h2 : e + δ < T
      · exact ih hbrest (e + δ) h2
      · rw [waitRunFrom_done pred T rest (e + δ) h2]
        push_neg at h2
        refine ⟨rfl, ?_, ?_⟩
        · show T ≤ e + δ
          linarith
        · show e + δ < T + 1
          linarith
    | chanError δ => exact absurd hbev (by simp [benignEvent])

/-- C1: the spec says the PGN-group variant accepts a frame iff
`identifier & 0x1FFFFF00` equals the group value of `0x18FF14FB` and
payload byte 0 is 1, and that every frame of that group with payload[0]=1
arriving in time yields success.  The code violates this: its condition
compares `identifier & 0x1FFFF00` (25-bit mask, an `F` short) with
`0x18FF14FB00` (the unmasked id with a spurious trailing byte), which no
identifier can satisfy, so the variant B wait never acknowledges anything —
in particular not the exact frame `0x18FF14FB` with payload
`[1,0,0,0,0,0,0,0]` delivered half a second into the wait. -/
theorem c1_pgn_group_wait_never_acknowledges :
    (∀ f : CanFrame, groupPred f = PredOut.decided false) ∧
    (∀ (evts : List TimedEvent) (e : ℚ), (waitRunFrom groupPred 10 evts e).1 = false) ∧
    (wait_for_response_B
      [TimedEvent.frame (1/2)
        (CanFrame.mk 0x18FF14FB true [1, 0, 0, 0, 0, 0, 0, 0])]).1 = false := by
  refine ⟨groupPred_eq_false, fun evts e => waitRunFrom_groupPred_false evts e, ?_⟩
  exact waitRunFrom_groupPred_false _ 0

/-- C3 counterexample: the claim says the timeout outcome and the
transport-error outcome of the wait have different return values; in the
code both paths `return False`, so at these concrete inputs (an empty
event schedule, i.e. pure timeout, versus a channel exception mid-wait)
the returned values coincide. -/
theorem c3_timeout_error_same_value_cex :
    (wait_for_response_A []).1 = false ∧
    (wait_for_response_A [TimedEvent.chanError (1/2)]).1 = false := by
  constructor
  · norm_num [wait_for_response_A, waitRunFrom]
  · norm_num [wait_for_response_A, waitRunFrom]

/-- C3 amended: both failure modes of the wait return the same value
`False` — a deadline that elapses with no match and a channel error
mid-wait are indistinguishable from the wait's return value (they differ
only in logging). -/
theorem c3_wait_failure_value_uniform (pred : CanFrame → PredOut) (T e δ : ℚ)
    (rest : List TimedEvent) :
    (waitRunFrom pred T [] e).1 = false ∧
    (waitRunFrom pred T (TimedEvent.chanError δ :: rest) e).1 = false := by
  constructor
  · by_cases he : e < T <;> simp [waitRunFrom, he]
  · by_cases he : e < T <;> simp [waitRunFrom, he]

/-- C4 counterexample: the claim says every frame not satisfying the ack
predicate — including one with a payload shorter than 1 byte — is
discarded and polling continues.  In variant A, a frame with source
address 3 and an empty payload makes `msg.data[0]` raise `IndexError`,
which the handler catches, returning `False` at once: here the wait ends
at 0.5 s (deadline 120 s) and never sees the matching frame scheduled
right behind it. -/
theorem c4_short_payload_aborts_wait_cex :
    wait_for_response_A
      [TimedEvent.frame (1/2) (CanFrame.mk 3 true []),
       TimedEvent.frame 1 (CanFrame.mk 3 true [1])] =
      (false, 1/2) := by
  norm_num [wait_for_response_A, waitRunFrom, saPred, data0Is1,
    show (3:ℕ) &&& 255 = 3 from by decide]

/-- C4 amended: a received frame on which the ack condition evaluates
(without raising) to `False` is discarded and the wait continues on the
remaining events with only the clock advanced; frames on which the
condition raises `IndexError` (empty payload reaching `msg.data[0]`) are
excluded, since they abort the wait. -/
theorem c4_decided_false_frames_discarded (pred : CanFrame → PredOut)
    (T e δ : ℚ) (f : CanFrame) (evts : List TimedEvent)
    (he : e < T) (hf : pred f = PredOut.decided false) :
    waitRunFrom pred T (TimedEvent.frame δ f :: evts) e =
      waitRunFrom pred T evts (e + δ) :=
  waitRunFrom_skip pred T e δ f evts he hf

/-- Witness for C4 amended: the spec's example non-matching frame
(identifier `0x18FF1401`, payload[0]=0) is discarded by the variant A
wait. -/
theorem c4_decided_false_frames_discarded_witness :
    waitRunFrom saPred 120
      [TimedEvent.frame 1
        (CanFrame.mk 0x18FF1401 true [0])] 0 =
      waitRunFrom saPred 120 [] (0 + 1) :=
  c4_decided_false_frames_discarded saPred 120 0 1
    (CanFrame.mk 0x18FF1401 true [0]) []
    (by norm_num) (by decide)

/-- C6 counterexample: the claim says that whenever no frame satisfying
the ack predicate is delivered, the wait returns the timed-out result
after the configured timeout, never earlier.  This schedule delivers no
frame satisfying variant A's predicate — its single frame (source address
3, empty payload) makes the condition raise `IndexError` instead — yet
the wait returns its failure value `False` already at 0.5 s, far below
the 120-second timeout. -/
theorem c6_nonmatching_raise_ends_wait_early_cex :
    saPred (CanFrame.mk 3 true []) = PredOut.indexError ∧
    wait_for_response_A [TimedEvent.frame (1/2) (CanFrame.mk 3 true [])] =
      (false, 1/2) ∧
    ((1 : ℚ)/2) < 120 := by
  refine ⟨by decide, ?_, by norm_num⟩
  norm_num [wait_for_response_A, waitRunFrom, saPred, data0Is1,
    show (3:ℕ) &&& 255 = 3 from by decide]

/-- C6 amended: over any schedule of benign receive events — empty polls,
or frames the ack condition cleanly rejects (without raising), delivered
within the 1-second poll interval, and no channel error — both variants'
waits return the timed-out `False`, no earlier than the configured
timeout (120 s for variant A, 10 s for variant B) and strictly less than
one poll interval past it.  The benignity restriction is forced: a frame
the condition raises on, or a channel error, ends the wait early with the
same `False` value. -/
theorem c6_wait_timeout_within_tolerance
    (evtsA evtsB : List TimedEvent)
    (hA : ∀ ev ∈ evtsA, benignEvent saPred ev)
    (hB : ∀ ev ∈ evtsB, benignEvent groupPred ev) :
    ((wait_for_response_A evtsA).1 = false ∧
      120 ≤ (wait_for_response_A evtsA).2 ∧ (wait_for_response_A evtsA).2 < 120 + 1) ∧
    ((wait_for_response_B evtsB).1 = false ∧
      10 ≤ (wait_for_response_B evtsB).2 ∧ (wait_for_response_B evtsB).2 < 10 + 1) := by
  constructor
  · exact waitRunFrom_timeout_bounds saPred 120 evtsA hA 0 (by norm_num)
  · exact waitRunFrom_timeout_bounds groupPred 10 evtsB hB 0 (by norm_num)

/-- Witness for C6: a schedule with one empty poll followed by silence. -/
theorem c6_wait_timeout_within_tolerance_witness :
    ((wait_for_response_A [TimedEvent.timeout]).1 = false ∧
      120 ≤ (wait_for_response_A [TimedEvent.timeout]).2 ∧
      (wait_for_response_A [TimedEvent.timeout]).2 < 120 + 1) ∧
    ((wait_for_response_B [TimedEvent.timeout]).1 = false ∧
      10 ≤ (wait_for_response_B [TimedEvent.timeout]).2 ∧
      (wait_for_response_B [TimedEvent.timeout]).2 < 10 + 1) :=
  c6_wait_timeout_within_tolerance [TimedEvent.timeout] [TimedEvent.timeout]
    (by simp [benignEvent]) (by simp [benignEvent])

/-- C8: the trigger frame is the fixed constant with 29-bit extended
identifier `0x18FF14FA` and payload `[1,0,0,0,0,0,0,0]`; every behavior of
`send_can_message` hands the bus either nothing or exactly this frame, and
the successful behavior performs exactly open-then-send of it. -/
theorem c8_trigger_frame_fixed :
    triggerFrame = CanFrame.mk 0x18FF14FA true [1, 0, 0, 0, 0, 0, 0, 0] ∧
    (∀ b : SendBehavior, (send_can_message b).1 = [] ∨
      (send_can_message b).1 = [ChanOp.openBus, ChanOp.sendFrame triggerFrame]) ∧
    send_can_message SendBehavior.ok =
      ([ChanOp.openBus, ChanOp.sendFrame triggerFrame], true) := by
  refine ⟨rfl, ?_, rfl⟩
  intro b
  cases b
  · exact Or.inr rfl
  · exact Or.inl rfl
  · exact Or.inr rfl

/-- C10: the variant A ack condition accepts exactly the frames whose
identifier's low byte is 3 and whose payload byte 0 is 1 — the upper 21
identifier bits are ignored — and any frame `256*u + 3` with payload
starting with 1, delivered while the deadline has not passed, makes the
wait return success immediately, whatever `u` is. -/
theorem c10_sa3_ignores_upper_bits :
    (∀ f : CanFrame, saPred f = PredOut.decided true ↔
      (f.arbitration_id &&& 0xFF = 3 ∧ f.data.head? = some 1)) ∧
    (∀ (u : ℕ) (t : List ℕ) (δ : ℚ) (evts : List TimedEvent) (e : ℚ), e < 120 →
      (waitRunFrom saPred 120
        (TimedEvent.frame δ
          (CanFrame.mk (256 * u + 3) true (1 :: t)) ::
          evts) e).1 = true) := by
  constructor
  · intro f
    cases hd : f.data with
    | nil =>
      by_cases h : f.arbitration_id &&& 0xFF = 3 <;>
        simp [saPred, data0Is1, hd, h]
    | cons b t =>
      by_cases h : f.arbitration_id &&& 0xFF = 3 <;>
        simp [saPred, data0Is1, hd, h]
  · intro u t δ evts e he
    have hid : (256 * u + 3) &&& 0xFF = 3 := by
      have h255 : (0xFF : ℕ) = 2 ^ 8 - 1 := by norm_num
      rw [h255, Nat.and_pow_two_sub_one_eq_mod]
      omega
    have hpred : saPred
        (CanFrame.mk (256 * u + 3) true (1 :: t)) =
        PredOut.decided true := by
      simp [saPred, data0Is1, hid]
    simp [waitRunFrom, he, hpred]

/-- Witness for C10: an arbitrary unrelated PGN (`0x18FF10` as upper
bits) sent by source address 3 with payload[0]=1 is accepted at once. -/
theorem c10_sa3_ignores_upper_bits_witness :
    (waitRunFrom saPred 120
      [TimedEvent.frame 1
        (CanFrame.mk (256 * 0x18FF10 + 3) true [1])]
      0).1 = true :=
  c10_sa3_ignores_upper_bits.2 0x18FF10 [] 1 [] 0 (by norm_num)

/-- C2: the update invocation happens in a cycle only when the trigger
send succeeded and the acknowledgement wait returned success in that same
cycle — whatever `wait_for_response` variant drives the cycle. -/
theorem c2_update_gated_on_ack (w : List TimedEvent → Bool × ℚ)
    (r : StageResults)
    (h : CycleAction.invokeUpdate ∈ (main_cycle w r).2) :
    (send_can_message r.sendB).2 = true ∧ (w r.waitEvents).1 = true := by
  rcases r with ⟨fresh, setupOk, sendB, evts, updateOk⟩
  cases fresh <;> cases setupOk <;> cases sendB <;> cases updateOk <;>
    revert h <;> cases hw : (w evts).1 <;>
    simp [main_cycle, send_can_message, hw]

/-- Witness for C2: a fully successful cycle invokes the update, and
indeed its send succeeded and its wait acknowledged. -/
theorem c2_update_gated_on_ack_witness :
    (send_can_message SendBehavior.ok).2 = true ∧
    (wait_for_response_A [TimedEvent.frame 1 (CanFrame.mk 3 true [1])]).1 = true :=
  c2_update_gated_on_ack wait_for_response_A
    ⟨true, true, SendBehavior.ok, [TimedEvent.frame 1 (CanFrame.mk 3 true [1])], true⟩
    (by
      have hw : (wait_for_response_A
          [TimedEvent.frame 1 (CanFrame.mk 3 true [1])]).1 = true := by
        norm_num [wait_for_response_A, waitRunFrom, saPred, data0Is1,
          show (3:ℕ) &&& 255 = 3 from by decide]
      simp [main_cycle, send_can_message, hw])

/-- C5 counterexample: the claim says every cycle — succeeded, no-op, or
failed at any stage — is followed by the 60-second sleep before the next
freshness check.  In the code each stage failure runs `continue`, which
skips `time.sleep(DOWNLOAD_CHECK_INTERVAL)`: in this cycle the interface
setup fails and no sleep action is performed. -/
theorem c5_failed_cycle_skips_sleep_cex :
    (main_cycle wait_for_response_A
      ⟨true, false, SendBehavior.ok, [], true⟩).1 = CycleOutcome.ifaceFailed ∧
    ((main_cycle wait_for_response_A
      ⟨true, false, SendBehavior.ok, [], true⟩).2.contains CycleAction.sleep60) = false := by
  constructor
  · simp [main_cycle]
  · simp [main_cycle]

/-- C5 amended: the 60-second sleep before the next freshness check
happens exactly in the cycles that end in no-action or full success; a
cycle failing at interface setup, trigger send, acknowledgement wait or
update invocation hits a `continue` that skips the sleep, so the next
freshness check begins immediately. -/
theorem c5_sleep_iff_noaction_or_completed (w : List TimedEvent → Bool × ℚ)
    (r : StageResults) :
    CycleAction.sleep60 ∈ (main_cycle w r).2 ↔
      ((main_cycle w r).1 = CycleOutcome.noAction ∨
        (main_cycle w r).1 = CycleOutcome.completed) := by
  rcases r with ⟨fresh, setupOk, sendB, evts, updateOk⟩
  cases fresh <;> cases setupOk <;> cases sendB <;> cases updateOk <;>
    cases hw : (w evts).1 <;>
    simp [main_cycle, send_can_message, hw]

/-- C7: the claim says each bus handle opened during a cycle is released
before the operation that opened it returns, on every exit path.  The code
never calls `shutdown()`/close on either bus object: no cycle trace ever
contains a close operation, while a successful cycle does open handles
(in `send_can_message` and again in `wait_for_response`). -/
theorem c7_bus_handles_never_closed :
    (∀ (w : List TimedEvent → Bool × ℚ) (r : StageResults),
      ((main_cycle w r).2.contains (CycleAction.chan ChanOp.closeBus)) = false) ∧
    CycleAction.chan ChanOp.openBus ∈
      (main_cycle wait_for_response_A
        ⟨true, true, SendBehavior.ok,
          [TimedEvent.frame 1 (CanFrame.mk 3 true [1])], true⟩).2 := by
  constructor
  · intro w r
    rcases r with ⟨fresh, setupOk, sendB, evts, updateOk⟩
    cases fresh <;> cases setupOk <;> cases sendB <;> cases updateOk <;>
      cases hw : (w evts).1 <;>
      simp [main_cycle, send_can_message, hw, triggerFrame]
  · have hw : (wait_for_response_A
        [TimedEvent.frame 1 (CanFrame.mk 3 true [1])]).1 = true := by
      norm_num [wait_for_response_A, waitRunFrom, saPred, data0Is1,
        show (3:ℕ) &&& 255 = 3 from by decide]
    simp [main_cycle, send_can_message, hw]

/-- C9: a cycle whose freshness check reports no new artifact ends with
the no-action outcome and performs exactly the 60-second sleep: no
interface setup, no channel operation, no update invocation. -/
theorem c9_no_fresh_artifact_no_ops (w : List TimedEvent → Bool × ℚ)
    (r : StageResults) (h : r.fresh = false) :
    (main_cycle w r).1 = CycleOutcome.noAction ∧
    (main_cycle w r).2 = [CycleAction.sleep60] := by
  rcases r with ⟨fresh, setupOk, sendB, evts, updateOk⟩
  simp only at h
  subst h
  simp [main_cycle]

/-- Witness for C9: a concrete stale-artifact cycle. -/
theorem c9_no_fresh_artifact_no_ops_witness :
    (main_cycle wait_for_response_A
      ⟨false, true, SendBehavior.ok, [], true⟩).1 = CycleOutcome.noAction ∧
    (main_cycle wait_for_response_A
      ⟨false, true, SendBehavior.ok, [], true⟩).2 = [CycleAction.sleep60] :=
  c9_no_fresh_artifact_no_ops wait_for_response_A
    ⟨false, true, SendBehavior.ok, [], true⟩ rfl
